import Mathlib

set_option maxRecDepth 8192

/-!
Verification of the AI request/response abstraction layer of the Goaly
repository (`ai/services.py`, `ai/openrouter.py`) against its design
specification.

The Python code is shallowly embedded:

* JSON values (the values produced by Python's `json.loads`) are the
  inductive type `Json`.  JSON numbers are modelled as integers; no
  behaviour checked here exercises non-integer JSON numbers, and the
  modelled `json.loads` treats a fraction or exponent as a parse failure.
* `json.loads` is modelled by `pyJsonLoads`, a fuel-based recursive
  descent parser for the JSON grammar (objects, arrays, strings with the
  single-character escapes, integers, `true`/`false`/`null`, whitespace),
  requiring the whole input to be consumed.  `\u` escapes are not
  modelled (treated as parse failure); no behaviour checked here uses them.
* Python exceptions are modelled by `Except PyErr`; a `try/except`
  block is modelled by matching on the `Except` value.
* Python dictionaries are association lists without duplicate keys
  (duplicates are collapsed, last value wins, as `json.loads` does).
-/

/-- JSON values as returned by Python's `json.loads`. -/
inductive Json where
  | null : Json
  | bool (b : Bool) : Json
  | num (n : Int) : Json
  | str (s : String) : Json
  | arr (xs : List Json) : Json
  | obj (kvs : List (String × Json)) : Json
deriving Repr

/-- Modelled Python exceptions. -/
inductive PyErr where
  /-- `RuntimeError(msg)` -/
  | runtimeError (msg : String) : PyErr
  /-- `ValueError`, e.g. from `float("abc")` -/
  | valueError : PyErr
  /-- `TypeError`, e.g. from `map(str, 5)` -/
  | typeError : PyErr
  /-- `json.JSONDecodeError` -/
  | jsonDecodeError : PyErr
  /-- any error surfaced by the OpenAI client (network, auth, rate limit, ...) -/
  | apiError : PyErr
deriving Repr, DecidableEq

-- Delimiter, escape and whitespace characters of the JSON grammar and of
-- Python string handling, named via their code points.
def lbraceChar : Char := Char.ofNat 123
def rbraceChar : Char := Char.ofNat 125
def quoteChar : Char := Char.ofNat 34
def backslashChar : Char := Char.ofNat 92
def aposChar : Char := Char.ofNat 39
def tabChar : Char := Char.ofNat 9
def lfChar : Char := Char.ofNat 10
def crChar : Char := Char.ofNat 13
def vtChar : Char := Char.ofNat 11
def ffChar : Char := Char.ofNat 12

/-- Whitespace accepted by the JSON grammar (RFC 8259): space, tab, LF, CR. -/
def isJsonWs (c : Char) : Bool :=
  c = ' ' || c = tabChar || c = lfChar || c = crChar

/-- Whitespace stripped by Python `str.strip()` (the ASCII part:
space, tab, LF, CR, VT, FF; no behaviour checked here uses
non-ASCII whitespace). -/
def isPyWs (c : Char) : Bool :=
  c = ' ' || c = tabChar || c = lfChar || c = crChar || c = vtChar || c = ffChar

/-- Python `s.strip()`. -/
def pyStrip (s : String) : String :=
  String.mk (((s.data.dropWhile isPyWs).reverse.dropWhile isPyWs).reverse)

/-- Skip JSON whitespace. -/
def skipWs (cs : List Char) : List Char :=
  cs.dropWhile isJsonWs

/-- Insert into a Python dict modelled as an ordered association list:
an existing key keeps its position and gets the new value, a new key is
appended.  This is how `json.loads` handles duplicate object keys. -/
def objUpsert (acc : List (String × Json)) (k : String) (v : Json) :
    List (String × Json) :=
  match acc with
  | [] => [(k, v)]
  | (k0, v0) :: rest =>
      if k0 = k then (k0, v) :: rest else (k0, v0) :: objUpsert rest k v

/-- Single-character JSON string escapes (`\u` is not modelled). -/
def jsonEscape (c : Char) : Option Char :=
  if c = quoteChar then some quoteChar
  else if c = backslashChar then some backslashChar
  else if c = '/' then some '/'
  else if c = 'b' then some (Char.ofNat 8)
  else if c = 'f' then some ffChar
  else if c = 'n' then some lfChar
  else if c = 'r' then some crChar
  else if c = 't' then some tabChar
  else none

/-- Parse the body of a JSON string, after the opening quote, up to and
including the closing quote. -/
def jsonStringBody : List Char → Option (String × List Char)
  | [] => none
  | c :: rest =>
    if c = quoteChar then some ("", rest)
    else if c = backslashChar then
      match rest with
      | [] => none
      | e :: rest2 =>
        match jsonEscape e with
        | none => none
        | some c2 =>
          match jsonStringBody rest2 with
          | none => none
          | some (s, r) => some (String.mk (c2 :: s.data), r)
    else
      match jsonStringBody rest with
      | none => none
      | some (s, r) => some (String.mk (c :: s.data), r)

/-- Accumulate a run of decimal digits. -/
def takeDigits : List Char → Nat → Nat × List Char
  | [], acc => (acc, [])
  | c :: rest, acc =>
      if c.isDigit then takeDigits rest (acc * 10 + (c.toNat - 48))
      else (acc, c :: rest)

/-- Does the list start with a decimal digit? -/
def headIsDigit : List Char → Bool
  | c :: _ => c.isDigit
  | [] => false

/-- Parse a JSON number.  Only integers are modelled: a fraction or an
exponent is treated as a parse failure (see the header comment). -/
def jsonNumber (cs : List Char) : Option (Json × List Char) :=
  let signed : Bool × List Char :=
    match cs with
    | c :: rest => if c = '-' then (true, rest) else (false, cs)
    | [] => (false, cs)
  match signed.2 with
  | [] => none
  | c :: rest =>
    if ¬ c.isDigit then none
    else if c = '0' ∧ headIsDigit rest then
      none  -- leading zero rejected by the JSON grammar
    else
      let nr := takeDigits rest (c.toNat - 48)
      let n : Int := if signed.1 then -(nr.1 : Int) else (nr.1 : Int)
      match nr.2 with
      | c2 :: _ =>
          if c2 = '.' ∨ c2 = 'e' ∨ c2 = 'E' then none
          else some (Json.num n, nr.2)
      | [] => some (Json.num n, [])

mutual

/-- Parse one JSON value (leading whitespace allowed), fuel-bounded. -/
def jsonValue (fuel : Nat) (cs : List Char) : Option (Json × List Char) :=
  match fuel with
  | 0 => none
  | f + 1 =>
    match skipWs cs with
    | [] => none
    | c :: rest =>
      if c = quoteChar then
        match jsonStringBody rest with
        | some (s, r) => some (Json.str s, r)
        | none => none
      else if c = lbraceChar then
        jsonMembers f (skipWs rest) [] true
      else if c = '[' then
        jsonElems f (skipWs rest) [] true
      else if c = 't' then
        match rest with
        | 'r' :: 'u' :: 'e' :: r => some (Json.bool true, r)
        | _ => none
      else if c = 'f' then
        match rest with
        | 'a' :: 'l' :: 's' :: 'e' :: r => some (Json.bool false, r)
        | _ => none
      else if c = 'n' then
        match rest with
        | 'u' :: 'l' :: 'l' :: r => some (Json.null, r)
        | _ => none
      else
        jsonNumber (c :: rest)
termination_by structural fuel

/-- Parse object members; `first` is true right after the opening brace
(where a closing brace yields the empty object). -/
def jsonMembers (fuel : Nat) (cs : List Char) (acc : List (String × Json))
    (first : Bool) : Option (Json × List Char) :=
  match fuel with
  | 0 => none
  | f + 1 =>
    match cs with
    | [] => none
    | c :: rest =>
      if first ∧ c = rbraceChar then some (Json.obj acc, rest)
      else if c = quoteChar then
        match jsonStringBody rest with
        | none => none
        | some (k, r1) =>
          match skipWs r1 with
          | [] => none
          | c2 :: r2 =>
            if c2 = ':' then
              match jsonValue f r2 with
              | none => none
              | some (v, r3) =>
                let acc2 := objUpsert acc k v
                match skipWs r3 with
                | [] => none
                | c3 :: r4 =>
                  if c3 = ',' then jsonMembers f (skipWs r4) acc2 false
                  else if c3 = rbraceChar then some (Json.obj acc2, r4)
                  else none
            else none
      else none
termination_by structural fuel

/-- Parse array elements; `first` is true right after the opening bracket
(where a closing bracket yields the empty array). -/
def jsonElems (fuel : Nat) (cs : List Char) (acc : List Json)
    (first : Bool) : Option (Json × List Char) :=
  match fuel with
  | 0 => none
  | f + 1 =>
    match cs with
    | [] => none
    | c :: _ =>
      if first ∧ c = ']' then
        some (Json.arr acc, cs.tail)
      else
        match jsonValue f cs with
        | none => none
        | some (v, r1) =>
          match skipWs r1 with
          | [] => none
          | c2 :: r2 =>
            if c2 = ',' then jsonElems f (skipWs r2) (acc ++ [v]) false
            else if c2 = ']' then some (Json.arr (acc ++ [v]), r2)
            else none
termination_by structural fuel

end

/-- Model of Python's `json.loads`: parse one JSON value and require the
rest of the input to be whitespace.  `none` models a raised
`JSONDecodeError`. -/
def pyJsonLoads (s : String) : Option Json :=
  match jsonValue (2 * s.length + 8) s.data with
  | some (v, rest) => if (skipWs rest).isEmpty then some v else none
  | none => none

/-- `json.loads` as a fallible computation (the shape expected by code
that wraps it in `try/except`). -/
def pyJsonLoadsE (s : String) : Except PyErr Json :=
  match pyJsonLoads s with
  | some v => Except.ok v
  | none => Except.error PyErr.jsonDecodeError

/-- Python truthiness (`bool(x)`) of a JSON value. -/
def Json.truthy : Json → Bool
  | Json.null => false
  | Json.bool b => b
  | Json.num n => decide (n ≠ 0)
  | Json.str s => decide (s ≠ "")
  | Json.arr xs => ¬ xs.isEmpty
  | Json.obj kvs => ¬ kvs.isEmpty

/-- One character of Python `repr` of a string (the escapes for backslash,
quote, newline, carriage return and tab; `repr`'s hex escapes for other
control characters and its quote-style switching are not modelled — no
behaviour checked here evaluates `str()` on containers of such strings). -/
def pyReprEscape (c : Char) : List Char :=
  if c = backslashChar then [backslashChar, backslashChar]
  else if c = aposChar then [backslashChar, aposChar]
  else if c = lfChar then [backslashChar, 'n']
  else if c = crChar then [backslashChar, 'r']
  else if c = tabChar then [backslashChar, 't']
  else [c]

/-- Python `repr` of a string (see `pyReprEscape` for scope). -/
def pyStrQuote (s : String) : String :=
  String.mk (aposChar :: (s.data.map pyReprEscape).flatten ++ [aposChar])

mutual

/-- Python `repr` of a JSON value. -/
def pyRepr : Json → String
  | Json.null => "None"
  | Json.bool b => if b then "True" else "False"
  | Json.num n => toString n
  | Json.str s => pyStrQuote s
  | Json.arr xs => "[" ++ pyReprElems xs ++ "]"
  | Json.obj kvs => "\x7b" ++ pyReprMembers kvs ++ "\x7d"

def pyReprElems : List Json → String
  | [] => ""
  | [x] => pyRepr x
  | x :: y :: rest => pyRepr x ++ ", " ++ pyReprElems (y :: rest)

def pyReprMembers : List (String × Json) → String
  | [] => ""
  | [(k, v)] => pyStrQuote k ++ ": " ++ pyRepr v
  | (k, v) :: m :: rest =>
      pyStrQuote k ++ ": " ++ pyRepr v ++ ", " ++ pyReprMembers (m :: rest)

end

/-- Python `str()` of a JSON value (`str` on a string is the identity,
everything else renders as `repr` does). -/
def pyStr (j : Json) : String :=
  match j with
  | Json.str s => s
  | Json.null => "None"
  | Json.bool b => if b then "True" else "False"
  | Json.num n => toString n
  | Json.arr xs => "[" ++ pyReprElems xs ++ "]"
  | Json.obj kvs => "\x7b" ++ pyReprMembers kvs ++ "\x7d"

/-- Lookup in a Python dict modelled as an association list. -/
def dictLookup (obj : List (String × Json)) (k : String) : Option Json :=
  match obj with
  | [] => none
  | (k0, v) :: rest => if k0 = k then some v else dictLookup rest k

/-- Python `obj.get(k, d)`. -/
def dictGetD (obj : List (String × Json)) (k : String) (d : Json) : Json :=
  (dictLookup obj k).getD d

/-- `_require_keys(obj, keys)`, i.e. `all(k in obj for k in keys)`
(`ai/services.py`, lines 46-47). -/
def require_keys (obj : List (String × Json)) (keys : List String) : Bool :=
  keys.all (fun k => (dictLookup obj k).isSome)

/-- Python `a or b`. -/
def pyOr (a b : Json) : Json := if a.truthy then a else b

/-- Model of `_JSON_OBJECT_RE.search(text)` with the pattern
`backslash-lbrace [backslash-s backslash-S]* backslash-rbrace`
(`ai/services.py`, line 18): the leftmost match starts at the first
opening brace that is followed by a closing brace, and greed makes it end
at the last closing brace of the whole text.  Returns `m.group(0)`. -/
def regexJsonObjectSearch (s : String) : Option String :=
  match s.data.dropWhile (fun c => c ≠ lbraceChar) with
  | [] => none
  | _ :: tail =>
    let r := tail.reverse.dropWhile (fun c => c ≠ rbraceChar)
    if r.isEmpty then none
    else some (String.mk (lbraceChar :: r.reverse))

/-- `_best_effort_json_loads` (`ai/services.py`, lines 21-43), parameterised
by the behaviour of `json.loads` (which may fail with any exception; both
`try/except Exception` blocks of the source are modelled by the catch-all
matches).  `(text or "")` on a string argument is the identity when the
text is non-empty and `""` otherwise, which `pyStrip` maps to `""` either
way, so it is not modelled separately. -/
def best_effort_json_loads (loads : String → Except PyErr Json)
    (text : String) : Except PyErr (List (String × Json)) :=
  let t := pyStrip text
  if t = "" then Except.ok []
  else
    match loads t with
    | Except.ok (Json.obj kvs) => Except.ok kvs
    | _ =>
      -- parse failure caught, or parsed to a non-dict: fall through
      match regexJsonObjectSearch t with
      | none => Except.ok []
      | some sub =>
        match loads sub with
        | Except.ok (Json.obj kvs) => Except.ok kvs
        | _ => Except.ok []

/-- Index of the first occurrence of a character. -/
def firstIdxOf (cs : List Char) (a : Char) : Option Nat :=
  match cs with
  | [] => none
  | c :: rest => if c = a then some 0 else (firstIdxOf rest a).map (· + 1)

/-- Index of the last occurrence of a character. -/
def lastIdxOf (cs : List Char) (a : Char) : Option Nat :=
  match cs with
  | [] => none
  | c :: rest =>
    match lastIdxOf rest a with
    | some j => some (j + 1)
    | none => if c = a then some 0 else none

/-- The substring selection of spec section 4.4 step (3), written from the
spec words: the greedy brace-delimited match runs from the first opening
brace to the last closing brace (both inclusive), and exists when the
first opening brace lies strictly before the last closing brace. -/
def specBraceSubstring (s : String) : Option String :=
  match firstIdxOf s.data lbraceChar, lastIdxOf s.data rbraceChar with
  | some i, some j =>
      if i < j then some (String.mk ((s.data.take (j + 1)).drop i)) else none
  | _, _ => none

/-- `coerceJsonObject` written from the words of spec section 4.4:
(1) trim, empty input yields an empty mapping; (2) parse the whole trimmed
text, return it if it is an object; (3) otherwise parse the greedy
brace-delimited substring, return it if it is an object; (4) otherwise
return an empty mapping. -/
def coerceJsonObject (loads : String → Except PyErr Json) (text : String) :
    List (String × Json) :=
  let t := pyStrip text
  if t = "" then []
  else
    match loads t with
    | Except.ok (Json.obj kvs) => kvs
    | _ =>
      match specBraceSubstring t with
      | none => []
      | some sub =>
        match loads sub with
        | Except.ok (Json.obj kvs) => kvs
        | _ => []

/-- Concrete input of spec section 8: a bare JSON object. -/
def exObjText : String := "\x7b\"a\":1\x7d"

/-- Concrete input of spec section 8: a JSON object wrapped in prose. -/
def exProseText : String := "sure, here you go: \x7b\"a\":1\x7d thanks"

/-- The process environment variables read by this layer
(`ai/openrouter.py`, lines 11-19); `none` models an unset variable. -/
structure PyEnv where
  OPENROUTER_API_KEY : Option String
  OPENROUTER_BASE_URL : Option String
  OPENROUTER_MODEL_TEXT : Option String
  OPENROUTER_MODEL_VISION : Option String
  OPENROUTER_SITE_URL : Option String
  OPENROUTER_APP_NAME : Option String
  AI_TEMPERATURE : Option String
  AI_MAX_TOKENS : Option String
deriving Repr

/-- The environment with no variable set. -/
def PyEnv.empty : PyEnv :=
  PyEnv.mk none none none none none none none none

/-- An environment with only the API key set. -/
def PyEnv.keyOnly (k : String) : PyEnv :=
  PyEnv.mk (some k) none none none none none none none

/-- Parse an optional single leading sign; returns whether the value is
negated and the remaining characters. -/
def parseSign : List Char → Bool × List Char
  | c :: rest =>
      if c = '-' then (true, rest)
      else if c = '+' then (false, rest)
      else (false, c :: rest)
  | [] => (false, [])

/-- At least one decimal digit, accumulated. -/
def digits1 (cs : List Char) : Option (Nat × List Char) :=
  match cs with
  | c :: rest =>
      if c.isDigit then some (takeDigits rest (c.toNat - 48)) else none
  | [] => none

/-- Accumulate fraction digits together with their count. -/
def takeFracDigits : List Char → Nat → Nat → Nat × Nat × List Char
  | [], acc, k => (acc, k, [])
  | c :: rest, acc, k =>
      if c.isDigit then takeFracDigits rest (acc * 10 + (c.toNat - 48)) (k + 1)
      else (acc, k, c :: rest)

/-- Optional exponent part `e`/`E`, signed digits. -/
def parseExp (cs : List Char) : Option (Int × List Char) :=
  match cs with
  | c :: rest =>
      if c = 'e' ∨ c = 'E' then
        let sg := parseSign rest
        match digits1 sg.2 with
        | some (e, r) => some (if sg.1 then -(e : Int) else (e : Int), r)
        | none => none
      else some (0, c :: rest)
  | [] => some (0, [])

/-- Powers of ten (used to build parsed decimal values). -/
def pow10 (n : Nat) : Nat := Nat.pow 10 n

/-- Model of Python `float(s)` on decimal forms: strip whitespace, optional
sign, digits with optional fraction and optional exponent, or a bare
`.digits` form.  The value is the exact rational the decimal denotes.
`inf`/`nan` and underscore grouping are not modelled (no behaviour checked
here uses them).  `none` models a raised `ValueError`. -/
def pyFloat (s : String) : Option Rat :=
  let cs := ((s.data.dropWhile isPyWs).reverse.dropWhile isPyWs).reverse
  let sg := parseSign cs
  -- mantissa digits, number of fraction digits, remaining characters
  let core : Option (Nat × Nat × List Char) :=
    match digits1 sg.2 with
    | some (n, r1) =>
        match r1 with
        | '.' :: r2 =>
            let fr := takeFracDigits r2 0 0
            some (n * pow10 fr.2.1 + fr.1, fr.2.1, fr.2.2)
        | _ => some (n, 0, r1)
    | none =>
        match sg.2 with
        | '.' :: r2 =>
            if headIsDigit r2 then
              let fr := takeFracDigits r2 0 0
              some (fr.1, fr.2.1, fr.2.2)
            else none
        | _ => none
  match core with
  | none => none
  | some (m, k, r) =>
      match parseExp r with
      | none => none
      | some (e, r2) =>
          if r2.isEmpty then
            let sm : Int := if sg.1 then -(m : Int) else (m : Int)
            some (mkRat (sm * ((pow10 e.toNat : Nat) : Int))
              (pow10 (k + (-e).toNat)))
          else none

/-- Model of Python `int(s)`: strip whitespace, optional sign, digits
(underscore grouping not modelled).  `none` models a raised `ValueError`. -/
def pyInt (s : String) : Option Int :=
  let cs := ((s.data.dropWhile isPyWs).reverse.dropWhile isPyWs).reverse
  let sg := parseSign cs
  match digits1 sg.2 with
  | some (n, r) =>
      if r.isEmpty then some (if sg.1 then -(n : Int) else (n : Int)) else none
  | none => none

/-- `OpenRouterConfig` (`ai/openrouter.py`, lines 7-35). -/
structure OpenRouterConfig where
  api_key : String
  base_url : String
  model_text : String
  model_vision : String
  site_url : String
  app_name : String
  temperature : Rat
  max_tokens : Int
deriving Repr, DecidableEq

/-- `OpenRouterConfig.__init__` (`ai/openrouter.py`, lines 22-35): each
variable is read with its fixed default and stripped; `float()` and
`int()` of the numeric overrides raise `ValueError` on malformed input. -/
def OpenRouterConfig.init (env : PyEnv) : Except PyErr OpenRouterConfig :=
  let api_key := pyStrip (env.OPENROUTER_API_KEY.getD "")
  let base_url :=
    pyStrip (env.OPENROUTER_BASE_URL.getD "https://openrouter.ai/api/v1")
  let model_text :=
    pyStrip (env.OPENROUTER_MODEL_TEXT.getD "google/gemini-2.0-flash")
  let model_vision :=
    pyStrip (env.OPENROUTER_MODEL_VISION.getD "google/gemini-2.0-flash")
  let site_url := pyStrip (env.OPENROUTER_SITE_URL.getD "")
  let app_name := pyStrip (env.OPENROUTER_APP_NAME.getD "Goaly")
  match pyFloat (env.AI_TEMPERATURE.getD "0.4") with
  | none => Except.error PyErr.valueError
  | some temperature =>
    match pyInt (env.AI_MAX_TOKENS.getD "800") with
    | none => Except.error PyErr.valueError
    | some max_tokens =>
        Except.ok (OpenRouterConfig.mk api_key base_url model_text
          model_vision site_url app_name temperature max_tokens)

/-- The message of the missing-key configuration error. -/
def missingKeyMsg : String :=
  "OPENROUTER_API_KEY is not set. Set it in your environment (.env) to enable AI features."

/-- `require_openrouter_api_key` (`ai/openrouter.py`, lines 65-70): raises
iff `os.getenv("OPENROUTER_API_KEY")` is falsy, i.e. unset or empty. -/
def require_openrouter_api_key (env : PyEnv) : Except PyErr Unit :=
  if env.OPENROUTER_API_KEY.getD "" = "" then
    Except.error (PyErr.runtimeError missingKeyMsg)
  else Except.ok ()

/-- The outcome of the remote `chat.completions.create` call together with
the first-choice access: an exception, or `choices[0].message.content`
(`none` models a `None` content). -/
def NetOutcome : Type := Except PyErr (Option String)

/-- `chat_completion` (`ai/openrouter.py`, lines 73-101) with the network
behaviour abstracted: `get_openai_client` and the function itself each
construct `OpenRouterConfig()` before the single `create` call, so a
config error surfaces with no transport call; the content of the first
choice is `or ""`-defaulted and stripped.  The second component of the
result counts transport invocations.  Prompt text, headers and sampling
parameters influence no verified property and are not tracked. -/
def chat_completion (env : PyEnv) (net : NetOutcome) :
    Except PyErr String × Nat :=
  match OpenRouterConfig.init env with
  | Except.error e => (Except.error e, 0)
  | Except.ok _ =>
      match net with
      | Except.error e => (Except.error e, 1)
      | Except.ok content => (Except.ok (pyStrip (content.getD "")), 1)

/-- `EvidenceVerificationResult` (`ai/services.py`, lines 65-68). -/
structure EvidenceVerificationResult where
  verified : Bool
  feedback : String
deriving Repr, DecidableEq

/-- The result shape of `decompose_yearly_goal`. -/
structure DecomposeResult where
  daily : List String
  weekly : List String
  monthly : List String
deriving Repr, DecidableEq

/-- The result shape of `plan_yearly_goals`. -/
structure PlanResult where
  daily : List String
  weekly : List String
  monthly : List String
  yearly : List String
deriving Repr, DecidableEq

/-- `str(s).strip()` of a JSON value, kept when non-empty: the body and
test of the comprehension `[str(s).strip() for s in xs if str(s).strip()]`. -/
def stripStr (j : Json) : Option String :=
  let t := pyStrip (pyStr j)
  if t = "" then none else some t

/-- `[str(s).strip() for s in xs if str(s).strip()]`. -/
def cleanStrings (xs : List Json) : List String := xs.filterMap stripStr

/-- `[s.strip() for s in l if isinstance(s, str) and s.strip()]` on a list
that is already all strings (after `map(str, ...)` the `isinstance` test
is identically true). -/
def cleanStrList (l : List String) : List String :=
  l.filterMap (fun s => if pyStrip s = "" then none else some (pyStrip s))

/-- Python iteration over a JSON value (as the iterable argument of
`map`/`list`): a list yields its elements, a string its one-character
substrings, a dict its keys; `None`, booleans and numbers are not
iterable and raise `TypeError`. -/
def pyIter : Json → Except PyErr (List Json)
  | Json.arr xs => Except.ok xs
  | Json.str s => Except.ok (s.data.map (fun c => Json.str (String.mk [c])))
  | Json.obj kvs => Except.ok (kvs.map (fun kv => Json.str kv.1))
  | Json.null => Except.error PyErr.typeError
  | Json.bool _ => Except.error PyErr.typeError
  | Json.num _ => Except.error PyErr.typeError

/-- `list(map(str, v))[:k]` (`ai/services.py`, lines 202-204). -/
def mapStrTake (v : Json) (k : Nat) : Except PyErr (List String) :=
  match pyIter v with
  | Except.error e => Except.error e
  | Except.ok xs => Except.ok ((xs.map pyStr).take k)

/-- Fallback feedback when a required key is absent
(`ai/services.py`, line 128). -/
def noKeysFeedback : String :=
  "Could not confidently verify evidence from the provided image."

/-- Fallback feedback when the feedback strips to empty
(`ai/services.py`, line 133). -/
def emptyFeedback : String :=
  "Could not determine clear evidence; try a clearer photo."

/-- Python slicing `s[:n]` on a string: the first `n` code points. -/
def pySlice (s : String) (n : Nat) : String := String.mk (s.data.take n)

/-- The parse-and-validate step of `verify_goal_evidence`
(`ai/services.py`, lines 123-134). -/
def verifyParse (obj : List (String × Json)) : EvidenceVerificationResult :=
  if ¬ require_keys obj ["verified", "feedback"] then
    EvidenceVerificationResult.mk false noKeysFeedback
  else
    let verified := (dictGetD obj "verified" Json.null).truthy
    let feedback :=
      pySlice (pyStrip (pyStr (pyOr (dictGetD obj "feedback" Json.null)
        (Json.str "")))) 300
    if feedback = "" then EvidenceVerificationResult.mk verified emptyFeedback
    else EvidenceVerificationResult.mk verified feedback

/-- The normalisation step of `decompose_yearly_goal` (`ai/services.py`,
lines 200-209): per key, `list(map(str, obj.get(k, []) or []))[:cap]`,
then the strip-and-drop filter (where the `isinstance(s, str)` test is
identically true because every entry was just mapped through `str`). -/
def decomposeParse (obj : List (String × Json)) :
    Except PyErr DecomposeResult :=
  match mapStrTake (pyOr (dictGetD obj "daily" (Json.arr [])) (Json.arr [])) 3 with
  | Except.error e => Except.error e
  | Except.ok d =>
    match mapStrTake (pyOr (dictGetD obj "weekly" (Json.arr [])) (Json.arr [])) 2 with
    | Except.error e => Except.error e
    | Except.ok w =>
      match mapStrTake (pyOr (dictGetD obj "monthly" (Json.arr [])) (Json.arr [])) 1 with
      | Except.error e => Except.error e
      | Except.ok m =>
          Except.ok (DecomposeResult.mk (cleanStrList d) (cleanStrList w)
            (cleanStrList m))

/-- `x if isinstance(x, list) else []`: the list guard applied by
`refine_goal`, `get_goal_tips` and `plan_yearly_goals` to the coerced
field value. -/
def listOrEmpty : Json → List Json
  | Json.arr xs => xs
  | _ => []

/-- `obj.get(k, []) or []` followed by the `isinstance(..., list)` guard:
the upstream list a list-valued capability works on. -/
def fieldList (obj : List (String × Json)) (k : String) : List Json :=
  listOrEmpty (pyOr (dictGetD obj k (Json.arr [])) (Json.arr []))

/-- The normalisation step of `refine_goal` (`ai/services.py`,
lines 248-253). -/
def refineParse (obj : List (String × Json)) : List String :=
  (cleanStrings (fieldList obj "subgoals")).take 3

/-- The static tips fallback (`ai/services.py`, line 297). -/
def tipsFallback : List String :=
  ["Break it down", "Schedule time", "Track progress"]

/-- The normalisation step of `get_goal_tips` (`ai/services.py`,
lines 292-297); `out[:3] or fallback` replaces an empty list. -/
def tipsParse (obj : List (String × Json)) : List String :=
  let out := (cleanStrings (fieldList obj "tips")).take 3
  if out.isEmpty then tipsFallback else out

/-- One key of the normalisation step of `plan_yearly_goals`
(`ai/services.py`, lines 340-351). -/
def planKey (obj : List (String × Json)) (k : String) : List String :=
  (cleanStrings (fieldList obj k)).take 3

/-- The normalisation step of `plan_yearly_goals` (`ai/services.py`,
lines 340-351). -/
def planParse (obj : List (String × Json)) : PlanResult :=
  PlanResult.mk (planKey obj "daily") (planKey obj "weekly")
    (planKey obj "monthly") (planKey obj "yearly")

/-- `verify_goal_evidence` (`ai/services.py`, lines 71-134): key guard,
config, one transport call, coercion, validation.  The goal text and the
image data URL feed only the prompt and influence no verified property;
the trace/span context managers (`ai/observability.py`) execute their
body unchanged and swallow their own failures, so they are not modelled.
The second component counts transport invocations. -/
def verify_goal_evidence (env : PyEnv) (net : NetOutcome) :
    Except PyErr EvidenceVerificationResult × Nat :=
  match require_openrouter_api_key env with
  | Except.error e => (Except.error e, 0)
  | Except.ok _ =>
    match OpenRouterConfig.init env with
    | Except.error e => (Except.error e, 0)
    | Except.ok _ =>
      match chat_completion env net with
      | (Except.error e, n) => (Except.error e, n)
      | (Except.ok text, n) =>
        match best_effort_json_loads pyJsonLoadsE text with
        | Except.error e => (Except.error e, n)
        | Except.ok obj => (Except.ok (verifyParse obj), n)

/-- The static coaching fallback (`ai/services.py`, line 162). -/
def coachingFallback : String :=
  "Pick one goal and do a 12-minute start right now."

/-- `get_ai_coaching` (`ai/services.py`, lines 137-162); the pending-goals
argument feeds only the prompt.  `chat_completion(...) or fallback`
replaces an empty string. -/
def get_ai_coaching (env : PyEnv) (net : NetOutcome) :
    Except PyErr String × Nat :=
  match require_openrouter_api_key env with
  | Except.error e => (Except.error e, 0)
  | Except.ok _ =>
    match OpenRouterConfig.init env with
    | Except.error e => (Except.error e, 0)
    | Except.ok _ =>
      match chat_completion env net with
      | (Except.error e, n) => (Except.error e, n)
      | (Except.ok text, n) =>
          (Except.ok (if text = "" then coachingFallback else text), n)

/-- `decompose_yearly_goal` (`ai/services.py`, lines 165-209); the goal
text feeds only the prompt. -/
def decompose_yearly_goal (env : PyEnv) (net : NetOutcome) :
    Except PyErr DecomposeResult × Nat :=
  match require_openrouter_api_key env with
  | Except.error e => (Except.error e, 0)
  | Except.ok _ =>
    match OpenRouterConfig.init env with
    | Except.error e => (Except.error e, 0)
    | Except.ok _ =>
      match chat_completion env net with
      | (Except.error e, n) => (Except.error e, n)
      | (Except.ok text, n) =>
        match best_effort_json_loads pyJsonLoadsE text with
        | Except.error e => (Except.error e, n)
        | Except.ok obj =>
          match decomposeParse obj with
          | Except.error e => (Except.error e, n)
          | Except.ok r => (Except.ok r, n)

/-- `refine_goal` (`ai/services.py`, lines 212-253); the goal text and
timeframe feed only the prompt. -/
def refine_goal (env : PyEnv) (net : NetOutcome) :
    Except PyErr (List String) × Nat :=
  match require_openrouter_api_key env with
  | Except.error e => (Except.error e, 0)
  | Except.ok _ =>
    match OpenRouterConfig.init env with
    | Except.error e => (Except.error e, 0)
    | Except.ok _ =>
      match chat_completion env net with
      | (Except.error e, n) => (Except.error e, n)
      | (Except.ok text, n) =>
        match best_effort_json_loads pyJsonLoadsE text with
        | Except.error e => (Except.error e, n)
        | Except.ok obj => (Except.ok (refineParse obj), n)

/-- `get_goal_tips` (`ai/services.py`, lines 256-297); the goal text and
timeframe feed only the prompt. -/
def get_goal_tips (env : PyEnv) (net : NetOutcome) :
    Except PyErr (List String) × Nat :=
  match require_openrouter_api_key env with
  | Except.error e => (Except.error e, 0)
  | Except.ok _ =>
    match OpenRouterConfig.init env with
    | Except.error e => (Except.error e, 0)
    | Except.ok _ =>
      match chat_completion env net with
      | (Except.error e, n) => (Except.error e, n)
      | (Except.ok text, n) =>
        match best_effort_json_loads pyJsonLoadsE text with
        | Except.error e => (Except.error e, n)
        | Except.ok obj => (Except.ok (tipsParse obj), n)

/-- `plan_yearly_goals` (`ai/services.py`, lines 300-351); the visions
text feeds only the prompt. -/
def plan_yearly_goals (env : PyEnv) (net : NetOutcome) :
    Except PyErr PlanResult × Nat :=
  match require_openrouter_api_key env with
  | Except.error e => (Except.error e, 0)
  | Except.ok _ =>
    match OpenRouterConfig.init env with
    | Except.error e => (Except.error e, 0)
    | Except.ok _ =>
      match chat_completion env net with
      | (Except.error e, n) => (Except.error e, n)
      | (Except.ok text, n) =>
        match best_effort_json_loads pyJsonLoadsE text with
        | Except.error e => (Except.error e, n)
        | Except.ok obj => (Except.ok (planParse obj), n)

/-- The static report fallback (`ai/services.py`, line 382). -/
def reportFallback : String :=
  "Your year is still being written. Keep showing up."

/-- `generate_yearly_report` (`ai/services.py`, lines 354-382); the
completed-goals and failed-lessons arguments feed only the prompt.
`chat_completion(...) or fallback` replaces an empty string. -/
def generate_yearly_report (env : PyEnv) (net : NetOutcome) :
    Except PyErr String × Nat :=
  match require_openrouter_api_key env with
  | Except.error e => (Except.error e, 0)
  | Except.ok _ =>
    match OpenRouterConfig.init env with
    | Except.error e => (Except.error e, 0)
    | Except.ok _ =>
      match chat_completion env net with
      | (Except.error e, n) => (Except.error e, n)
      | (Except.ok text, n) =>
          (Except.ok (if text = "" then reportFallback else text), n)

/-- The configuration produced for the key-only environment. -/
def cfgKeyOnly : OpenRouterConfig :=
  OpenRouterConfig.mk "k" "https://openrouter.ai/api/v1"
    "google/gemini-2.0-flash" "google/gemini-2.0-flash" "" "Goaly"
    (mkRat 2 5) 800

/-- The entry rule asserted by the claim for yearly decomposition, written
from its words: entries that are not strings are dropped, the rest are
trimmed and dropped when empty. -/
def specDropNonStrings (xs : List Json) : List String :=
  xs.filterMap (fun j =>
    match j with
    | Json.str s => if pyStrip s = "" then none else some (pyStrip s)
    | _ => none)

/-- A transport response whose daily list holds one number. -/
def dNumText : String := "\x7b\"daily\": [1]\x7d"

/-- A transport response with daily entries that are empty, padded,
non-string and plain. -/
def dMixText : String :=
  "\x7b\"daily\": [\" x \", \"\", 2, true, \"y\"], \"weekly\": [], \"monthly\": [7]\x7d"

/-- A transport response whose daily list has three usable entries after
an empty one. -/
def dGapText : String := "\x7b\"daily\": [\"\", \"a\", \"b\", \"c\"]\x7d"

/-- A transport response with a subgoals list for refinement. -/
def rMixText : String := "\x7b\"subgoals\": [\"a\", 1, \"\", \"b\", \"c\"]\x7d"

/-- The end-to-end tips transport stub of spec section 8. -/
def tipsStubText : String :=
  ("Here".push aposChar) ++
    "s advice: \x7b\"tips\":[\"Write first\",\"Set timer\"]\x7d"

theorem lastIdxOf_append_singleton (a d : Char) (xs : List Char) :
    lastIdxOf (xs ++ [d]) a =
      if d = a then some xs.length else lastIdxOf xs a := by
  induction xs with
  | nil => simp [lastIdxOf]
  | cons x xs ih =>
      by_cases hd : d = a
      · subst hd
        simp [lastIdxOf, ih]
      · simp [lastIdxOf, ih, hd]

theorem lastIdxOf_lt_length (a : Char) (cs : List Char) :
    ∀ j : Nat, lastIdxOf cs a = some j → j < cs.length := by
  induction cs with
  | nil => intro j h; simp [lastIdxOf] at h
  | cons c rest ih =>
      intro j h
      simp only [lastIdxOf] at h
      cases hr : lastIdxOf rest a with
      | some j0 =>
          rw [hr] at h
          have hj : j = j0 + 1 := by
            injection h with h2
            omega
          have := ih j0 hr
          simp [hj, List.length_cons]
          omega
      | none =>
          rw [hr] at h
          by_cases hc : c = a
          · rw [if_pos hc] at h
            have hj : j = 0 := by injection h with h2; omega
            simp [hj]
          · rw [if_neg hc] at h
            exact absurd h (by simp)

theorem lastIdxOf_eq_none_not_mem (a : Char) (cs : List Char)
    (h : lastIdxOf cs a = none) : a ∉ cs := by
  induction cs with
  | nil => simp
  | cons c rest ih =>
      simp only [lastIdxOf] at h
      cases hr : lastIdxOf rest a with
      | some j => rw [hr] at h; simp at h
      | none =>
          rw [hr] at h
          by_cases hca : c = a
          · rw [if_pos hca] at h; simp at h
          · rw [if_neg hca] at h
            intro hmem
            rcases List.mem_cons.mp hmem with h1 | h1
            · exact hca h1.symm
            · exact ih hr h1

theorem lastIdxOf_isSome_mem (a : Char) (cs : List Char)
    (h : (lastIdxOf cs a).isSome) : a ∈ cs := by
  induction cs with
  | nil => simp [lastIdxOf] at h
  | cons c rest ih =>
      simp only [lastIdxOf] at h
      cases hr : lastIdxOf rest a with
      | some j =>
          exact List.mem_cons_of_mem c (ih (by rw [hr]; rfl))
      | none =>
          rw [hr] at h
          by_cases hca : c = a
          · subst hca
            exact List.mem_cons_self c rest
          · rw [if_neg hca] at h
            simp at h

theorem reverse_dropWhile_lastIdxOf (a : Char) (cs : List Char) :
    (lastIdxOf cs a = none →
        cs.reverse.dropWhile (fun c => c ≠ a) = []) ∧
    (∀ j, lastIdxOf cs a = some j →
        (cs.reverse.dropWhile (fun c => c ≠ a)).reverse = cs.take (j + 1)) := by
  induction cs using List.reverseRecOn with
  | nil => simp [lastIdxOf]
  | append_singleton xs d ih =>
      constructor
      · intro h
        rw [lastIdxOf_append_singleton] at h
        by_cases hd : d = a
        · rw [if_pos hd] at h
          exact absurd h (by simp)
        · rw [if_neg hd] at h
          rw [List.reverse_append, List.reverse_singleton,
            List.singleton_append, List.dropWhile_cons,
            if_pos (by simp [hd])]
          exact ih.1 h
      · intro j h
        rw [lastIdxOf_append_singleton] at h
        by_cases hd : d = a
        · rw [if_pos hd] at h
          have hj : j = xs.length := by injection h with h2; omega
          subst hd
          rw [List.reverse_append, List.reverse_singleton,
            List.singleton_append, List.dropWhile_cons,
            if_neg (by simp)]
          rw [List.reverse_cons, List.reverse_reverse, hj,
            List.take_of_length_le (by simp)]
        · rw [if_neg hd] at h
          have hlt := lastIdxOf_lt_length a xs j h
          rw [List.reverse_append, List.reverse_singleton,
            List.singleton_append, List.dropWhile_cons,
            if_pos (by simp [hd])]
          rw [ih.2 j h, List.take_append_of_le_length (by omega)]

theorem regexSearch_eq_specBrace (s : String) :
    regexJsonObjectSearch s = specBraceSubstring s := by
  unfold regexJsonObjectSearch specBraceSubstring
  generalize s.data = cs
  induction cs with
  | nil => rfl
  | cons c rest ih =>
      by_cases hc : c = lbraceChar
      · -- the first opening brace is at index 0
        subst hc
        cases hr : lastIdxOf rest rbraceChar with
        | none =>
            have h1 := (reverse_dropWhile_lastIdxOf rbraceChar rest).1 hr
            have hd : ¬ (lbraceChar = rbraceChar) := by decide
            have hmem := lastIdxOf_eq_none_not_mem rbraceChar rest hr
            simp [List.dropWhile_cons, firstIdxOf, lastIdxOf, hr, h1, hd, hmem]
        | some j =>
            have hlt := lastIdxOf_lt_length rbraceChar rest j hr
            have h2 := (reverse_dropWhile_lastIdxOf rbraceChar rest).2 j hr
            have hne : ¬ (rest.reverse.dropWhile
                (fun c => c ≠ rbraceChar)).isEmpty = true := by
              rw [List.isEmpty_iff]
              intro h0
              rw [h0] at h2
              have hlen := congrArg List.length h2
              simp [List.length_take] at hlen
              omega
            have hmem := lastIdxOf_isSome_mem rbraceChar rest (by rw [hr]; rfl)
            simp only [ne_eq, decide_not] at h2 hne
            simp [List.dropWhile_cons, firstIdxOf, lastIdxOf, hr, hne, h2,
              hmem, List.take_succ_cons]
      · -- the head is not an opening brace: both sides defer to the tail
        rw [List.dropWhile_cons, if_pos (by simp [hc])]
        rw [ih]
        cases hf : firstIdxOf rest lbraceChar with
        | none => simp [firstIdxOf, hf, hc]
        | some i =>
            cases hr : lastIdxOf rest rbraceChar with
            | none =>
                have hrl : ¬ (rbraceChar = lbraceChar) := by decide
                by_cases hcr : c = rbraceChar
                · simp [firstIdxOf, lastIdxOf, hf, hr, hc, hcr, hrl]
                · simp [firstIdxOf, lastIdxOf, hf, hr, hc, hcr, hrl]
            | some j =>
                by_cases hij : i < j
                · simp [firstIdxOf, lastIdxOf, hf, hr, hc, hij,
                    Nat.succ_lt_succ_iff, List.take_succ_cons,
                    List.drop_succ_cons]
                · simp [firstIdxOf, lastIdxOf, hf, hr, hc, hij,
                    Nat.succ_lt_succ_iff]

/-- Shared bridge: the source recovery function equals, step for step, the
spec's `coerceJsonObject` algorithm, wrapped in a success. -/
theorem best_effort_eq_coerce (loads : String → Except PyErr Json)
    (text : String) :
    best_effort_json_loads loads text =
      Except.ok (coerceJsonObject loads text) := by
  by_cases h : pyStrip text = ""
  · unfold best_effort_json_loads coerceJsonObject
    rw [if_pos h, if_pos h]
  · unfold best_effort_json_loads coerceJsonObject
    rw [if_neg h, if_neg h, ← regexSearch_eq_specBrace]
    have tail_eq : ∀ o : Option String,
        ((match o with
          | none => Except.ok []
          | some sub =>
            match loads sub with
            | Except.ok (Json.obj kvs) => Except.ok kvs
            | _ => Except.ok []) : Except PyErr (List (String × Json))) =
        Except.ok
          ((match o with
            | none => []
            | some sub =>
              match loads sub with
              | Except.ok (Json.obj kvs) => kvs
              | _ => []) : List (String × Json)) := by
      intro o
      cases o with
      | none => rfl
      | some sub =>
          cases hs : loads sub with
          | error e => simp [hs]
          | ok v => cases v <;> simp [hs]
    cases hl : loads (pyStrip text) with
    | error e => exact tail_eq _
    | ok v => cases v <;> first | rfl | exact tail_eq _

/-- C1: for every input string `t`, the response-coercion function
`_best_effort_json_loads` never raises and always returns a mapping from
string keys to JSON values, possibly empty — for any behaviour of
`json.loads`, including arbitrary exceptions. -/
theorem best_effort_json_loads_total_mapping
    (loads : String → Except PyErr Json) (text : String) :
    ∃ kvs : List (String × Json),
      best_effort_json_loads loads text = Except.ok kvs :=
  ⟨coerceJsonObject loads text, best_effort_eq_coerce loads text⟩

/-- C2: `_best_effort_json_loads` computes exactly the documented four-step
algorithm (trim and return an empty mapping on empty input; parse the whole
trimmed text and return it if it is an object; otherwise parse the greedy
substring from the first opening brace to the last closing brace and return
it if it is an object; otherwise return an empty mapping), and on the four
documented inputs returns the documented mappings. -/
theorem best_effort_json_loads_algorithm :
    (∀ (loads : String → Except PyErr Json) (text : String),
        best_effort_json_loads loads text =
          Except.ok (coerceJsonObject loads text)) ∧
    best_effort_json_loads pyJsonLoadsE exObjText =
      Except.ok [("a", Json.num 1)] ∧
    best_effort_json_loads pyJsonLoadsE exProseText =
      Except.ok [("a", Json.num 1)] ∧
    best_effort_json_loads pyJsonLoadsE "not json at all" = Except.ok [] ∧
    best_effort_json_loads pyJsonLoadsE "" = Except.ok [] :=
  ⟨best_effort_eq_coerce, by rfl, by rfl, by rfl, by rfl⟩

/-- Shared run lemma: a successful `verify_goal_evidence` call is one
transport invocation followed by `verifyParse` of the coerced object. -/
theorem verify_run (env : PyEnv) (cfg : OpenRouterConfig)
    (content : Option String) (obj : List (String × Json))
    (hk : require_openrouter_api_key env = Except.ok ())
    (hc : OpenRouterConfig.init env = Except.ok cfg)
    (hb : best_effort_json_loads pyJsonLoadsE (pyStrip (content.getD "")) =
      Except.ok obj) :
    verify_goal_evidence env (Except.ok content) =
      (Except.ok (verifyParse obj), 1) := by
  unfold verify_goal_evidence chat_completion
  simp only [hk, hc, hb]

/-- Shared run lemma for `decompose_yearly_goal`. -/
theorem decompose_run (env : PyEnv) (cfg : OpenRouterConfig)
    (content : Option String) (obj : List (String × Json))
    (hk : require_openrouter_api_key env = Except.ok ())
    (hc : OpenRouterConfig.init env = Except.ok cfg)
    (hb : best_effort_json_loads pyJsonLoadsE (pyStrip (content.getD "")) =
      Except.ok obj) :
    decompose_yearly_goal env (Except.ok content) = (decomposeParse obj, 1) := by
  unfold decompose_yearly_goal chat_completion
  simp only [hk, hc, hb]
  cases hd : decomposeParse obj with
  | error e => simp [hd]
  | ok r => simp [hd]

/-- Shared run lemma for `refine_goal`. -/
theorem refine_run (env : PyEnv) (cfg : OpenRouterConfig)
    (content : Option String) (obj : List (String × Json))
    (hk : require_openrouter_api_key env = Except.ok ())
    (hc : OpenRouterConfig.init env = Except.ok cfg)
    (hb : best_effort_json_loads pyJsonLoadsE (pyStrip (content.getD "")) =
      Except.ok obj) :
    refine_goal env (Except.ok content) = (Except.ok (refineParse obj), 1) := by
  unfold refine_goal chat_completion
  simp only [hk, hc, hb]

/-- Shared run lemma for `get_goal_tips`. -/
theorem tips_run (env : PyEnv) (cfg : OpenRouterConfig)
    (content : Option String) (obj : List (String × Json))
    (hk : require_openrouter_api_key env = Except.ok ())
    (hc : OpenRouterConfig.init env = Except.ok cfg)
    (hb : best_effort_json_loads pyJsonLoadsE (pyStrip (content.getD "")) =
      Except.ok obj) :
    get_goal_tips env (Except.ok content) = (Except.ok (tipsParse obj), 1) := by
  unfold get_goal_tips chat_completion
  simp only [hk, hc, hb]

/-- Shared run lemma for `plan_yearly_goals`. -/
theorem plan_run (env : PyEnv) (cfg : OpenRouterConfig)
    (content : Option String) (obj : List (String × Json))
    (hk : require_openrouter_api_key env = Except.ok ())
    (hc : OpenRouterConfig.init env = Except.ok cfg)
    (hb : best_effort_json_loads pyJsonLoadsE (pyStrip (content.getD "")) =
      Except.ok obj) :
    plan_yearly_goals env (Except.ok content) = (Except.ok (planParse obj), 1) := by
  unfold plan_yearly_goals chat_completion
  simp only [hk, hc, hb]

/-- C3: the claim that every capability either returns a result of its
declared shape or raises the missing-key configuration error is violated
by the code: with a valid API key and the transport returning the
well-formed JSON text of an object whose daily field is a number,
`decompose_yearly_goal` raises `TypeError` (from `list(map(str, 5))`),
which is neither outcome — contradicting the code's own comment that it
ensures list types even if the model misbehaves, and the `isinstance`
guards of every sibling capability. -/
theorem decompose_yearly_goal_raises_typeerror :
    decompose_yearly_goal (PyEnv.keyOnly "k")
      (Except.ok (some "\x7b\"daily\": 5\x7d")) =
      (Except.error PyErr.typeError, 1) := by rfl

/-- C4: with no API key in the environment (unset or empty), every one of
the seven capability functions raises the missing-key configuration error
synchronously, with zero transport invocations, for every transport
behaviour. -/
theorem missing_api_key_zero_transport (env : PyEnv) (net : NetOutcome)
    (h : env.OPENROUTER_API_KEY.getD "" = "") :
    verify_goal_evidence env net =
      (Except.error (PyErr.runtimeError missingKeyMsg), 0) ∧
    get_ai_coaching env net =
      (Except.error (PyErr.runtimeError missingKeyMsg), 0) ∧
    decompose_yearly_goal env net =
      (Except.error (PyErr.runtimeError missingKeyMsg), 0) ∧
    refine_goal env net =
      (Except.error (PyErr.runtimeError missingKeyMsg), 0) ∧
    get_goal_tips env net =
      (Except.error (PyErr.runtimeError missingKeyMsg), 0) ∧
    plan_yearly_goals env net =
      (Except.error (PyErr.runtimeError missingKeyMsg), 0) ∧
    generate_yearly_report env net =
      (Except.error (PyErr.runtimeError missingKeyMsg), 0) := by
  have hk : require_openrouter_api_key env =
      Except.error (PyErr.runtimeError missingKeyMsg) := by
    unfold require_openrouter_api_key
    rw [if_pos h]
  refine ⟨?_, ?_, ?_, ?_, ?_, ?_, ?_⟩ <;>
    simp [verify_goal_evidence, get_ai_coaching, decompose_yearly_goal,
      refine_goal, get_goal_tips, plan_yearly_goals, generate_yearly_report,
      hk]

/-- Witness for C4 at the empty environment and a failing transport. -/
theorem missing_api_key_zero_transport_witness :
    verify_goal_evidence PyEnv.empty (Except.error PyErr.apiError) =
      (Except.error (PyErr.runtimeError missingKeyMsg), 0) ∧
    get_ai_coaching PyEnv.empty (Except.error PyErr.apiError) =
      (Except.error (PyErr.runtimeError missingKeyMsg), 0) ∧
    decompose_yearly_goal PyEnv.empty (Except.error PyErr.apiError) =
      (Except.error (PyErr.runtimeError missingKeyMsg), 0) ∧
    refine_goal PyEnv.empty (Except.error PyErr.apiError) =
      (Except.error (PyErr.runtimeError missingKeyMsg), 0) ∧
    get_goal_tips PyEnv.empty (Except.error PyErr.apiError) =
      (Except.error (PyErr.runtimeError missingKeyMsg), 0) ∧
    plan_yearly_goals PyEnv.empty (Except.error PyErr.apiError) =
      (Except.error (PyErr.runtimeError missingKeyMsg), 0) ∧
    generate_yearly_report PyEnv.empty (Except.error PyErr.apiError) =
      (Except.error (PyErr.runtimeError missingKeyMsg), 0) :=
  missing_api_key_zero_transport PyEnv.empty (Except.error PyErr.apiError)
    (by rfl)

theorem cleanStrList_length_le (l : List String) :
    (cleanStrList l).length ≤ l.length :=
  List.length_filterMap_le _ _

theorem mem_cleanStrList_ne_empty {s : String} {l : List String}
    (h : s ∈ cleanStrList l) : s ≠ "" := by
  unfold cleanStrList at h
  obtain ⟨a, _, ha⟩ := List.mem_filterMap.mp h
  by_cases hp : pyStrip a = ""
  · rw [if_pos hp] at ha
    exact absurd ha (by simp)
  · rw [if_neg hp] at ha
    have hs := Option.some.inj ha
    rw [← hs]
    exact hp

/-- Counterexample to C5: the code converts non-string entries with
`str()` instead of dropping them — on a daily list holding the number 1
it returns the list with the string form of 1 where the claimed drop rule
yields the empty list — and on a response whose monthly field is a bare
number it raises `TypeError` instead of returning a capped result at all. -/
theorem decompose_drop_rule_counterexample :
    (decompose_yearly_goal (PyEnv.keyOnly "k")
        (Except.ok (some dNumText))).1 =
      Except.ok (DecomposeResult.mk ["1"] [] []) ∧
    specDropNonStrings [Json.num 1] = [] ∧
    (["1"] : List String) ≠ [] ∧
    decompose_yearly_goal (PyEnv.keyOnly "k")
        (Except.ok (some "\x7b\"monthly\": 7\x7d")) =
      (Except.error PyErr.typeError, 1) :=
  ⟨by rfl, by rfl, by decide, by rfl⟩

/-- C5 as amended: for every transport response whose daily, weekly and
monthly values coerce to lists, `decompose_yearly_goal` returns at most 3
daily, 2 weekly and 1 monthly items; entries are converted to their
string form (non-strings are stringified, not dropped), the first
3/2/1 are kept, and entries empty after trimming are dropped. -/
theorem decompose_caps_and_stringifies (env : PyEnv) (cfg : OpenRouterConfig)
    (content : Option String) (obj : List (String × Json))
    (d w m : List Json)
    (hk : require_openrouter_api_key env = Except.ok ())
    (hc : OpenRouterConfig.init env = Except.ok cfg)
    (hb : best_effort_json_loads pyJsonLoadsE (pyStrip (content.getD "")) =
      Except.ok obj)
    (hd : pyOr (dictGetD obj "daily" (Json.arr [])) (Json.arr []) =
      Json.arr d)
    (hw : pyOr (dictGetD obj "weekly" (Json.arr [])) (Json.arr []) =
      Json.arr w)
    (hm2 : pyOr (dictGetD obj "monthly" (Json.arr [])) (Json.arr []) =
      Json.arr m) :
    decompose_yearly_goal env (Except.ok content) =
      (Except.ok (DecomposeResult.mk
        (cleanStrList ((d.map pyStr).take 3))
        (cleanStrList ((w.map pyStr).take 2))
        (cleanStrList ((m.map pyStr).take 1))), 1) ∧
    (cleanStrList ((d.map pyStr).take 3)).length ≤ 3 ∧
    (cleanStrList ((w.map pyStr).take 2)).length ≤ 2 ∧
    (cleanStrList ((m.map pyStr).take 1)).length ≤ 1 ∧
    (∀ s, s ∈ cleanStrList ((d.map pyStr).take 3) → s ≠ "") := by
  refine ⟨?_, ?_, ?_, ?_, ?_⟩
  · rw [decompose_run env cfg content obj hk hc hb]
    simp [decomposeParse, mapStrTake, hd, hw, hm2, pyIter]
  · exact le_trans (cleanStrList_length_le _) (List.length_take_le _ _)
  · exact le_trans (cleanStrList_length_le _) (List.length_take_le _ _)
  · exact le_trans (cleanStrList_length_le _) (List.length_take_le _ _)
  · exact fun s hs => mem_cleanStrList_ne_empty hs

/-- Witness for the amended C5 on a mixed daily list. -/
theorem decompose_caps_and_stringifies_witness :
    decompose_yearly_goal (PyEnv.keyOnly "k") (Except.ok (some dMixText)) =
      (Except.ok (DecomposeResult.mk ["x", "2"] [] ["7"]), 1) :=
  (decompose_caps_and_stringifies (PyEnv.keyOnly "k") cfgKeyOnly
    (some dMixText)
    [("daily", Json.arr [Json.str " x ", Json.str "", Json.num 2,
        Json.bool true, Json.str "y"]),
     ("weekly", Json.arr []), ("monthly", Json.arr [Json.num 7])]
    [Json.str " x ", Json.str "", Json.num 2, Json.bool true, Json.str "y"]
    [] [Json.num 7]
    (by rfl) (by rfl) (by rfl) (by rfl) (by rfl) (by rfl)).1

/-- Counterexample to C6: in `decompose_yearly_goal` the cap is applied
before the empty-after-trim entries are dropped, not after all coercion:
on a daily list with one empty and three usable entries, coerce-then-cap
yields the three usable entries, but the call returns only two. -/
theorem decompose_cap_order_counterexample :
    (decompose_yearly_goal (PyEnv.keyOnly "k")
        (Except.ok (some dGapText))).1 =
      Except.ok (DecomposeResult.mk ["a", "b"] [] []) ∧
    (cleanStrings [Json.str "", Json.str "a", Json.str "b",
        Json.str "c"]).take 3 = ["a", "b", "c"] ∧
    3 ≤ (cleanStrings [Json.str "", Json.str "a", Json.str "b",
        Json.str "c"]).length ∧
    (["a", "b"] : List String) ≠ ["a", "b", "c"] :=
  ⟨by rfl, by rfl, by rfl, by decide⟩

/-- C6 as amended: `refine_goal` and `plan_yearly_goals` return exactly
coerce-then-cap of the upstream list, and `get_goal_tips` does whenever
the capped coercion is non-empty (otherwise its documented static
fallback applies); whenever at least the cap's worth of usable entries
exist, the capped coercion has exactly the cap's length.
`decompose_yearly_goal` alone caps after stringification but before
dropping empty-after-trim entries, so its returned lists are
drop-empties of the capped stringification and can be shorter than the
cap (see the counterexample). -/
theorem caps_after_coercion (env : PyEnv) (cfg : OpenRouterConfig)
    (content : Option String) (obj : List (String × Json))
    (hk : require_openrouter_api_key env = Except.ok ())
    (hc : OpenRouterConfig.init env = Except.ok cfg)
    (hb : best_effort_json_loads pyJsonLoadsE (pyStrip (content.getD "")) =
      Except.ok obj) :
    (refine_goal env (Except.ok content)).1 =
      Except.ok ((cleanStrings (fieldList obj "subgoals")).take 3) ∧
    ((cleanStrings (fieldList obj "tips")).take 3 ≠ [] →
      (get_goal_tips env (Except.ok content)).1 =
        Except.ok ((cleanStrings (fieldList obj "tips")).take 3)) ∧
    (plan_yearly_goals env (Except.ok content)).1 =
      Except.ok (planParse obj) ∧
    (∀ k, planKey obj k = (cleanStrings (fieldList obj k)).take 3) ∧
    (∀ xs : List Json, 3 ≤ (cleanStrings xs).length →
      ((cleanStrings xs).take 3).length = 3) ∧
    (∀ d : List Json,
      pyOr (dictGetD obj "daily" (Json.arr [])) (Json.arr []) =
        Json.arr d →
      ∀ r n, decompose_yearly_goal env (Except.ok content) =
          (Except.ok r, n) →
        r.daily = cleanStrList ((d.map pyStr).take 3)) := by
  refine ⟨?_, ?_, ?_, ?_, ?_, ?_⟩
  · rw [refine_run env cfg content obj hk hc hb]
    rfl
  · intro hne
    rw [tips_run env cfg content obj hk hc hb]
    simp only [tipsParse]
    rw [if_neg (by simpa using hne)]
  · rw [plan_run env cfg content obj hk hc hb]
  · intro k
    rfl
  · intro xs h
    rw [List.length_take]
    omega
  · intro d0 hd0 r n hrun
    rw [decompose_run env cfg content obj hk hc hb] at hrun
    have h1 : decomposeParse obj = Except.ok r := congrArg Prod.fst hrun
    unfold decomposeParse mapStrTake at h1
    rw [hd0] at h1
    rw [show pyIter (Json.arr d0) = Except.ok d0 from rfl] at h1
    cases hW : pyIter (pyOr (dictGetD obj "weekly" (Json.arr []))
        (Json.arr [])) with
    | error e =>
        rw [hW] at h1
        simp at h1
    | ok w0 =>
        rw [hW] at h1
        cases hM : pyIter (pyOr (dictGetD obj "monthly" (Json.arr []))
            (Json.arr [])) with
        | error e =>
            rw [hM] at h1
            simp at h1
        | ok m0 =>
            rw [hM] at h1
            have h2 : DecomposeResult.mk
                (cleanStrList ((d0.map pyStr).take 3))
                (cleanStrList ((w0.map pyStr).take 2))
                (cleanStrList ((m0.map pyStr).take 1)) = r := by
              simpa using h1
            rw [← h2]

/-- Witness for the amended C6 on a mixed subgoals list. -/
theorem caps_after_coercion_witness :
    (refine_goal (PyEnv.keyOnly "k") (Except.ok (some rMixText))).1 =
      Except.ok ["a", "1", "b"] :=
  (caps_after_coercion (PyEnv.keyOnly "k") cfgKeyOnly (some rMixText)
    [("subgoals", Json.arr [Json.str "a", Json.num 1, Json.str "",
        Json.str "b", Json.str "c"])]
    (by rfl) (by rfl) (by rfl)).1

/-- Counterexample to C7: with `AI_TEMPERATURE` set to a non-numeric
string, constructing the configuration raises `ValueError` from
`float(...)`, so construction does not succeed for every environment. -/
theorem config_init_raises_counterexample :
    OpenRouterConfig.init
      (PyEnv.mk none none none none none none (some "abc") none) =
      Except.error PyErr.valueError := by rfl

/-- C7 as amended: constructing the configuration never raises provided
the numeric overrides `AI_TEMPERATURE` and `AI_MAX_TOKENS` are absent or
parse as a float and an int respectively (every string-valued variable is
accepted as-is); with every variable absent, the defaults are the fixed
base URL, the fixed model identifier for text and vision, temperature
0.4, max tokens 800, and app name Goaly. -/
theorem config_defaults_and_no_raise (env : PyEnv)
    (ht : (pyFloat (env.AI_TEMPERATURE.getD "0.4")).isSome)
    (hm : (pyInt (env.AI_MAX_TOKENS.getD "800")).isSome) :
    (∃ cfg, OpenRouterConfig.init env = Except.ok cfg) ∧
    OpenRouterConfig.init PyEnv.empty =
      Except.ok (OpenRouterConfig.mk "" "https://openrouter.ai/api/v1"
        "google/gemini-2.0-flash" "google/gemini-2.0-flash" "" "Goaly"
        (mkRat 2 5) 800) := by
  constructor
  · cases hf : pyFloat (env.AI_TEMPERATURE.getD "0.4") with
    | none => rw [hf] at ht; simp at ht
    | some q =>
        cases hi : pyInt (env.AI_MAX_TOKENS.getD "800") with
        | none => rw [hi] at hm; simp at hm
        | some n =>
            refine ⟨OpenRouterConfig.mk
              (pyStrip (env.OPENROUTER_API_KEY.getD ""))
              (pyStrip (env.OPENROUTER_BASE_URL.getD
                "https://openrouter.ai/api/v1"))
              (pyStrip (env.OPENROUTER_MODEL_TEXT.getD
                "google/gemini-2.0-flash"))
              (pyStrip (env.OPENROUTER_MODEL_VISION.getD
                "google/gemini-2.0-flash"))
              (pyStrip (env.OPENROUTER_SITE_URL.getD ""))
              (pyStrip (env.OPENROUTER_APP_NAME.getD "Goaly")) q n, ?_⟩
            simp [OpenRouterConfig.init, hf, hi]
  · rfl

/-- Witness for the amended C7 at the empty environment. -/
theorem config_defaults_and_no_raise_witness :
    ∃ cfg, OpenRouterConfig.init PyEnv.empty = Except.ok cfg :=
  (config_defaults_and_no_raise PyEnv.empty (by rfl) (by rfl)).1

/-- C8: when the coerced response object lacks the verified or the
feedback key, `verify_goal_evidence` returns verified false with the
fixed generic fallback feedback; when both keys are present, the
returned feedback is the stringified value trimmed and truncated to at
most 300 characters, with an empty result replaced by the generic
message, and is in all cases at most 300 characters long. -/
theorem verify_required_keys_normalization (env : PyEnv)
    (cfg : OpenRouterConfig) (content : Option String)
    (obj : List (String × Json))
    (hk : require_openrouter_api_key env = Except.ok ())
    (hc : OpenRouterConfig.init env = Except.ok cfg)
    (hb : best_effort_json_loads pyJsonLoadsE (pyStrip (content.getD "")) =
      Except.ok obj) :
    (require_keys obj ["verified", "feedback"] = false →
      (verify_goal_evidence env (Except.ok content)).1 =
        Except.ok (EvidenceVerificationResult.mk false noKeysFeedback)) ∧
    (require_keys obj ["verified", "feedback"] = true →
      ∃ r, (verify_goal_evidence env (Except.ok content)).1 =
          Except.ok r ∧
        r.verified = (dictGetD obj "verified" Json.null).truthy ∧
        r.feedback =
          (if pySlice (pyStrip (pyStr (pyOr (dictGetD obj "feedback"
              Json.null) (Json.str "")))) 300 = "" then emptyFeedback
           else pySlice (pyStrip (pyStr (pyOr (dictGetD obj "feedback"
              Json.null) (Json.str "")))) 300) ∧
        r.feedback.length ≤ 300) := by
  constructor
  · intro hno
    rw [verify_run env cfg content obj hk hc hb]
    simp [verifyParse, hno]
  · intro hyes
    refine ⟨verifyParse obj, ?_, ?_, ?_, ?_⟩
    · rw [verify_run env cfg content obj hk hc hb]
    · by_cases ht : pySlice (pyStrip (pyStr (pyOr (dictGetD obj "feedback"
          Json.null) (Json.str "")))) 300 = "" <;>
        simp [verifyParse, hyes, ht]
    · by_cases ht : pySlice (pyStrip (pyStr (pyOr (dictGetD obj "feedback"
          Json.null) (Json.str "")))) 300 = "" <;>
        simp [verifyParse, hyes, ht]
    · by_cases ht : pySlice (pyStrip (pyStr (pyOr (dictGetD obj "feedback"
          Json.null) (Json.str "")))) 300 = ""
      · simp only [verifyParse, hyes]
        rw [if_neg (by simp), if_pos ht]
        show emptyFeedback.length ≤ 300
        decide
      · simp only [verifyParse, hyes]
        rw [if_neg (by simp), if_neg ht]
        show (pySlice _ 300).length ≤ 300
        unfold pySlice
        show (List.take 300 _).length ≤ 300
        exact List.length_take_le _ _

/-- Witness for C8 on a response missing the feedback key. -/
theorem verify_required_keys_normalization_witness :
    (verify_goal_evidence (PyEnv.keyOnly "k")
        (Except.ok (some "\x7b\"verified\": true\x7d"))).1 =
      Except.ok (EvidenceVerificationResult.mk false noKeysFeedback) :=
  (verify_required_keys_normalization (PyEnv.keyOnly "k") cfgKeyOnly
    (some "\x7b\"verified\": true\x7d") [("verified", Json.bool true)]
    (by rfl) (by rfl) (by rfl)).1 (by rfl)

/-- C9: `get_goal_tips` returns exactly the three fixed fallback tips when
the coerced response contains zero usable tip strings; and on the
documented prose-wrapped transport stub it returns exactly the two
documented tips — capped at three, with no padding up to three. -/
theorem tips_fallback_and_stub (env : PyEnv) (cfg : OpenRouterConfig)
    (content : Option String) (obj : List (String × Json))
    (hk : require_openrouter_api_key env = Except.ok ())
    (hc : OpenRouterConfig.init env = Except.ok cfg)
    (hb : best_effort_json_loads pyJsonLoadsE (pyStrip (content.getD "")) =
      Except.ok obj) :
    (cleanStrings (fieldList obj "tips") = [] →
      (get_goal_tips env (Except.ok content)).1 =
        Except.ok ["Break it down", "Schedule time", "Track progress"]) ∧
    get_goal_tips (PyEnv.keyOnly "k") (Except.ok (some tipsStubText)) =
      (Except.ok ["Write first", "Set timer"], 1) ∧
    (["Write first", "Set timer"] : List String).length = 2 := by
  refine ⟨?_, by rfl, by rfl⟩
  intro hz
  rw [tips_run env cfg content obj hk hc hb]
  simp [tipsParse, hz, tipsFallback]

/-- Witness for C9 on a response with no JSON object at all. -/
theorem tips_fallback_and_stub_witness :
    (get_goal_tips (PyEnv.keyOnly "k")
        (Except.ok (some "no tips today"))).1 =
      Except.ok ["Break it down", "Schedule time", "Track progress"] :=
  (tips_fallback_and_stub (PyEnv.keyOnly "k") cfgKeyOnly
    (some "no tips today") [] (by rfl) (by rfl) (by rfl)).1 (by rfl)

/-- C10: with both required keys present, the verified flag returned by
`verify_goal_evidence` is the Python truthiness of the upstream verified
value, not a strict boolean check: the string form of false, the number
1 and a non-empty object are all truthy, while false, 0, null and the
empty string are falsy. -/
theorem verify_truthiness (env : PyEnv) (cfg : OpenRouterConfig)
    (content : Option String) (obj : List (String × Json)) (v : Json)
    (hk : require_openrouter_api_key env = Except.ok ())
    (hc : OpenRouterConfig.init env = Except.ok cfg)
    (hb : best_effort_json_loads pyJsonLoadsE (pyStrip (content.getD "")) =
      Except.ok obj)
    (hks : require_keys obj ["verified", "feedback"] = true)
    (hv : dictGetD obj "verified" Json.null = v) :
    (∃ r, (verify_goal_evidence env (Except.ok content)).1 =
        Except.ok r ∧ r.verified = v.truthy) ∧
    (Json.str "false").truthy = true ∧
    (Json.num 1).truthy = true ∧
    (Json.obj [("x", Json.null)]).truthy = true ∧
    (Json.bool false).truthy = false ∧
    (Json.num 0).truthy = false ∧
    Json.null.truthy = false ∧
    (Json.str "").truthy = false := by
  refine ⟨⟨verifyParse obj, ?_, ?_⟩, by rfl, by rfl, by rfl, by rfl, by rfl,
    by rfl, by rfl⟩
  · rw [verify_run env cfg content obj hk hc hb]
  · rw [← hv]
    by_cases ht : pySlice (pyStrip (pyStr (pyOr (dictGetD obj "feedback"
        Json.null) (Json.str "")))) 300 = "" <;>
      simp [verifyParse, hks, ht]

/-- Witness for C10 on a response whose verified value is the string form
of false. -/
theorem verify_truthiness_witness :
    ∃ r, (verify_goal_evidence (PyEnv.keyOnly "k")
        (Except.ok (some "\x7b\"verified\": \"false\", \"feedback\": \"ok\"\x7d"))).1 =
      Except.ok r ∧ r.verified = (Json.str "false").truthy :=
  (verify_truthiness (PyEnv.keyOnly "k") cfgKeyOnly
    (some "\x7b\"verified\": \"false\", \"feedback\": \"ok\"\x7d")
    [("verified", Json.str "false"), ("feedback", Json.str "ok")]
    (Json.str "false")
    (by rfl) (by rfl) (by rfl) (by rfl) (by rfl)).1
